import Mathlib

/-!
Shallow embedding of `src/pelomon/BLECyclingGatt.h` (PeloMon BLE Cycling
Power / Cycling Speed and Cadence GATT layer) and proofs about it.

The embedding models:
* `string_comparator_callback` and its `ProgmemComparatorState` (the
  reference-table line matcher),
* `BLECyclingPower::update` (the measurement-payload encoder and the two
  characteristic writes),
* `setup_cycling_power_feature` / `setup_cycling_speed_cadence_feature`
  (the service/characteristic declaration sequence).

C strings are modelled as lists of bytes (`List Nat`) that contain no NUL
byte; `strnlen_P` and `strncmp_P` are embedded with their C semantics.
Machine integers are `Nat` with explicit `% 2 ^ w` at the points where the
C code truncates or wraps.
-/

namespace Pelomon

/-- A C string holds no NUL byte. -/
def NulFree (s : List Nat) : Prop := (0 : Nat) ∉ s

instance (s : List Nat) : Decidable (NulFree s) := by
  unfold NulFree; infer_instance

/-- `strnlen(s, maxlen)`: length of `s` capped at `maxlen` (for NUL-free
strings the scan stops at the terminator or at `maxlen`). -/
def strnlen (s : List Nat) (maxlen : Nat) : Nat := min s.length maxlen

/-- `strncmp(a, b, n)`: compare at most `n` bytes of two NUL-terminated
strings, stopping at a terminator; a list end plays the role of the NUL. -/
def strncmp : List Nat → List Nat → Nat → Int
  | _, _, 0 => 0
  | [], [], _ + 1 => 0
  | [], b :: _, _ + 1 => if b = 0 then 0 else -(b : Int)
  | a :: _, [], _ + 1 => if a = 0 then 0 else (a : Int)
  | a :: as, b :: bs, n + 1 =>
      if a = b then (if a = 0 then 0 else strncmp as bs n)
      else (a : Int) - (b : Int)

lemma strncmp_eq_zero_iff (a b : List Nat) (n : Nat)
    (ha : NulFree a) (hb : NulFree b) :
    strncmp a b n = 0 ↔ a.take n = b.take n := by
  induction a generalizing b n with
  | nil =>
    cases b with
    | nil => cases n <;> simp [strncmp]
    | cons y ys =>
      cases n with
      | zero => simp [strncmp]
      | succ m =>
        have hy : y ≠ 0 := fun h => hb (h ▸ List.mem_cons_self y ys)
        simp [strncmp, hy]
  | cons x xs ih =>
    cases b with
    | nil =>
      cases n with
      | zero => simp [strncmp]
      | succ m =>
        have hx : x ≠ 0 := fun h => ha (h ▸ List.mem_cons_self x xs)
        simp [strncmp, hx]
    | cons y ys =>
      cases n with
      | zero => simp [strncmp]
      | succ m =>
        have hx : x ≠ 0 := fun h => ha (h ▸ List.mem_cons_self x xs)
        have hxs : NulFree xs := fun h => ha (List.mem_cons_of_mem x h)
        have hys : NulFree ys := fun h => hb (List.mem_cons_of_mem y h)
        by_cases hxy : x = y
        · subst hxy
          simp [strncmp, hx, ih ys m hxs hys]
        · have hd : (x : Int) - (y : Int) ≠ 0 := by
            intro h
            exact hxy (by omega)
          simp [strncmp, hxy, hd]

/-- `ProgmemComparatorState` from the source: running verdict, next line
index (`uint8_t`), declared total line count (`uint8_t`) and the PROGMEM
string table. -/
structure ProgmemComparatorState where
  is_equal : Bool
  line_number : Nat
  total_lines : Nat
  pgm_entry_table : List (List Nat)
  deriving Repr, DecidableEq

/-- `string_comparator_callback`: one call of the line comparator.
`linebuf` is the supplied line, `line_len` its declared length. Mirrors
the source: early return when `line_number >= total_lines`; otherwise the
verdict becomes
`is_equal && (line_len == strnlen_P(ref, line_len+1)) && (0 == strncmp_P(linebuf, ref, line_len))`
and `line_number` is incremented (a `uint8_t`, hence `% 256`). -/
def string_comparator_callback (state : ProgmemComparatorState)
    (linebuf : List Nat) (line_len : Nat) : ProgmemComparatorState :=
  if state.line_number ≥ state.total_lines then state
  else
    let next_pgm_line := state.pgm_entry_table.getD state.line_number []
    let next_pgm_line_len := strnlen next_pgm_line (line_len + 1)
    let lines_matched := strncmp linebuf next_pgm_line line_len
    { state with
      is_equal := state.is_equal && (line_len == next_pgm_line_len)
                    && ((0 : Int) == lines_matched)
      line_number := (state.line_number + 1) % 256 }

/-- A whole comparison session: the external line source invokes the
comparator once per line, in order, each line supplied with its length. -/
def run_session (state : ProgmemComparatorState)
    (lines : List (List Nat)) : ProgmemComparatorState :=
  lines.foldl (fun s l => string_comparator_callback s l l.length) state

/-- Fresh comparator state for a table: verdict `true`, index `0`. -/
def initState (table : List (List Nat)) : ProgmemComparatorState :=
  ⟨true, 0, table.length, table⟩

/-- The length-check-with-cap plus bounded byte compare of the source is
exactly "lengths equal AND lines equal" for NUL-free strings. -/
lemma verdict_formula (v : Bool) (linebuf ref : List Nat)
    (h3 : NulFree linebuf) (h4 : NulFree ref) :
    (v && (linebuf.length == strnlen ref (linebuf.length + 1))
       && ((0 : Int) == strncmp linebuf ref linebuf.length))
      = (v && (linebuf.length == ref.length) && (linebuf == ref)) := by
  by_cases hlen : linebuf.length = ref.length
  · have hcap : strnlen ref (linebuf.length + 1) = linebuf.length := by
      unfold strnlen; omega
    rw [hcap]
    have hcmp : strncmp linebuf ref linebuf.length = 0 ↔ linebuf = ref := by
      rw [strncmp_eq_zero_iff linebuf ref linebuf.length h3 h4, hlen,
        List.take_length, ← hlen, List.take_length]
    by_cases heq : linebuf = ref
    · have h0 : strncmp linebuf ref linebuf.length = 0 := hcmp.mpr heq
      subst heq
      rw [h0]
      simp
    · have h0 : strncmp linebuf ref linebuf.length ≠ 0 := fun h => heq (hcmp.mp h)
      have hb0 : ((0 : Int) == strncmp linebuf ref linebuf.length) = false := by
        simp only [beq_eq_false_iff_ne, ne_eq]
        exact fun h => h0 h.symm
      have hb1 : (linebuf == ref) = false := by
        simp only [beq_eq_false_iff_ne, ne_eq]
        exact heq
      rw [hb0, hb1]
      simp
  · have hcap : strnlen ref (linebuf.length + 1) ≠ linebuf.length := by
      unfold strnlen; omega
    have hb1 : (linebuf.length == strnlen ref (linebuf.length + 1)) = false := by
      simp only [beq_eq_false_iff_ne, ne_eq]
      exact fun h => hcap h.symm
    have hb2 : (linebuf.length == ref.length) = false := by
      simp only [beq_eq_false_iff_ne, ne_eq]
      exact hlen
    rw [hb1, hb2]
    simp

/-- One in-bounds comparator call, on the contents of a concrete literal
state: the verdict folds in the equality of the supplied line with the
current table entry, and the index advances by one. -/
lemma callback_step (v : Bool) (k : Nat) (table : List (List Nat))
    (l : List Nat)
    (hkl : k < table.length) (hlen : table.length ≤ 255)
    (hl : NulFree l) (htab : ∀ t ∈ table, NulFree t) :
    string_comparator_callback ⟨v, k, table.length, table⟩ l l.length
      = ⟨v && (l.length == (table.getD k []).length) && (l == table.getD k []),
         k + 1, table.length, table⟩ := by
  have hnot : ¬ (k ≥ table.length) := by omega
  have href : NulFree (table.getD k []) := by
    rw [List.getD_eq_getElem table [] hkl]
    exact htab _ (List.getElem_mem hkl)
  simp only [string_comparator_callback, ge_iff_le, hnot, if_false]
  congr 1
  · exact verdict_formula v l (table.getD k []) hl href
  · omega

/-- Running a session from index `k` on a table of at most 255 lines folds
the per-line equalities into the verdict by logical AND. -/
lemma run_session_verdict (table : List (List Nat))
    (lines : List (List Nat)) (k : Nat) (v : Bool)
    (hk : k + lines.length ≤ table.length) (hlen : table.length ≤ 255)
    (htab : ∀ l ∈ table, NulFree l) (hls : ∀ l ∈ lines, NulFree l) :
    (run_session ⟨v, k, table.length, table⟩ lines).is_equal
      = (v && (lines.zip (table.drop k)).all fun p => p.1 == p.2) := by
  induction lines generalizing k v with
  | nil => simp [run_session]
  | cons l ls ih =>
    have hkl : k < table.length := by
      simp only [List.length_cons] at hk; omega
    have hstep := callback_step v k table l hkl hlen
      (hls l (List.mem_cons_self l ls)) htab
    have hdrop : table.drop k = table.getD k [] :: table.drop (k + 1) := by
      rw [List.getD_eq_getElem table [] hkl]
      exact List.drop_eq_getElem_cons hkl
    have hrest := ih (k + 1)
      (v && (l.length == (table.getD k []).length) && (l == table.getD k []))
      (by simp only [List.length_cons] at hk; omega)
      (fun x hx => hls x (List.mem_cons_of_mem l hx))
    simp only [run_session, List.foldl_cons] at hrest ⊢
    rw [hstep, hrest, hdrop]
    simp only [List.zip_cons_cons, List.all_cons]
    by_cases h : l = table.getD k []
    · subst h
      simp
    · have hb : (l == table.getD k []) = false := by
        simp only [beq_eq_false_iff_ne, ne_eq]
        exact h
      rw [hb]
      simp

/-! ## Measurement encoder (`BLECyclingPower::update`) -/

/-- Little-endian bytes of a 16-bit value, as `APPEND_BUFFER` lays them
out via `memcpy` on the little-endian target. -/
def le16 (x : Nat) : List Nat := [x % 256, x / 256 % 256]

/-- Little-endian bytes of a 32-bit value. -/
def le32 (x : Nat) : List Nat :=
  [x % 256, x / 256 % 256, x / 65536 % 256, x / 16777216 % 256]

/-- Read a little-endian 16-bit field starting at byte `i` of a payload. -/
def decode16 (l : List Nat) (i : Nat) : Nat :=
  l.getD i 0 + 256 * l.getD (i + 1) 0

/-- Read a little-endian 32-bit field starting at byte `i` of a payload. -/
def decode32 (l : List Nat) (i : Nat) : Nat :=
  l.getD i 0 + 256 * l.getD (i + 1) 0 + 65536 * l.getD (i + 2) 0
    + 16777216 * l.getD (i + 3) 0

/-- Modelled from the spec: `CPM_ACCUMULATED_ENERGY_PRESENT` comes from
`ble_constants.h`, which is not part of the sources here; the spec gives
the accumulated-energy-present flags word as `0x0020`. -/
def CPM_ACCUMULATED_ENERGY_PRESENT : Nat := 0x0020

/-- Modelled from the spec: `CSCM_WHEEL_REV_DATA_PRESENT` comes from
`ble_constants.h` (missing here); the spec gives combined CSC flags
`0x03` for wheel-data-present and crank-data-present. -/
def CSCM_WHEEL_REV_DATA_PRESENT : Nat := 0x01

/-- Modelled from the spec: `CSCM_CRANK_REV_DATA_PRESENT` comes from
`ble_constants.h` (missing here); together with the wheel bit the spec
gives CSC flags `0x03`. -/
def CSCM_CRANK_REV_DATA_PRESENT : Nat := 0x02

/-- The power clamp of `update`:
`if (power_watts > 0x7FFF) power_watts = 0x7FFF;`. -/
def clamp_power (power_watts : Nat) : Nat :=
  if power_watts > 0x7FFF then 0x7FFF else power_watts

/-- The event-time conversion of `update`:
`(uint16_t)((timestamp_ms * 128) / 125)` where `timestamp_ms` is a
`uint32_t`, so the product wraps modulo `2^32` before the division, and
the result is narrowed to 16 bits. -/
def event_time_csc (ms : Nat) : Nat :=
  (ms * 128 % 4294967296) / 125 % 65536

/-- The 6-byte Cycling Power measurement payload built by `update`:
16-bit flags, clamped 16-bit instantaneous power, 16-bit energy, all
little-endian via `APPEND_BUFFER`. -/
def power_payload (power_watts total_energy_kj : Nat) : List Nat :=
  le16 CPM_ACCUMULATED_ENERGY_PRESENT
    ++ le16 (clamp_power power_watts % 65536)
    ++ le16 (total_energy_kj % 65536)

/-- The 11-byte CSC measurement payload built by `update`: 8-bit flags,
32-bit cumulative wheel revolutions, 16-bit wheel event time, 16-bit
cumulative crank revolutions, 16-bit crank event time. -/
def csc_payload (crank_revs last_crank_rev_timestamp_ms wheel_revs
    last_wheel_rev_timestamp_ms : Nat) : List Nat :=
  [(CSCM_WHEEL_REV_DATA_PRESENT ||| CSCM_CRANK_REV_DATA_PRESENT) % 256]
    ++ le32 (wheel_revs % 4294967296)
    ++ le16 (event_time_csc last_wheel_rev_timestamp_ms)
    ++ le16 (crank_revs % 65536)
    ++ le16 (event_time_csc last_crank_rev_timestamp_ms)

/-- The sensor values passed to `BLECyclingPower::update` each tick. -/
structure SensorSnapshot where
  crank_revs : Nat
  last_crank_rev_timestamp_ms : Nat
  wheel_revs : Nat
  last_wheel_rev_timestamp_ms : Nat
  power_watts : Nat
  total_energy_kj : Nat
  deriving Repr, DecidableEq

namespace BLECyclingPower

/-- `BLECyclingPower::update`, with the transport's
`Adafruit_BLEGatt::setChar` modelled as a function from (characteristic
handle, payload bytes) to a success boolean. Returns the list of
characteristic writes issued, in order, together with the returned
`cpm_success && csc_success`. Both `update_cp` and `update_csc` are
compile-time `true` in the source, and both branch bodies run
unconditionally. -/
def update (cp_measurement_id csc_measurement_id : Nat)
    (setChar : Nat → List Nat → Bool) (s : SensorSnapshot) :
    List (Nat × List Nat) × Bool :=
  let update_cp := true
  let update_csc := true
  let cp_result :=
    if update_cp then
      let data := power_payload s.power_watts s.total_energy_kj
      ([(cp_measurement_id, data)], setChar cp_measurement_id data)
    else ([], true)
  let csc_result :=
    if update_csc then
      let data := csc_payload s.crank_revs s.last_crank_rev_timestamp_ms
        s.wheel_revs s.last_wheel_rev_timestamp_ms
      ([(csc_measurement_id, data)], setChar csc_measurement_id data)
    else ([], true)
  (cp_result.1 ++ csc_result.1, cp_result.2 && csc_result.2)

end BLECyclingPower

/-! ## Service catalog (`setup_cycling_power_feature`,
`setup_cycling_speed_cadence_feature`) -/

/-- Modelled from the spec: the numeric UUID constants live in
`ble_constants.h`, which is not among the sources; only their identity
matters to the declaration sequence, so they are an enumeration. -/
inductive GattUuid
  | CYCLING_POWER_SERVICE_UUID
  | CYCLING_POWER_FEATURE_CHAR_UUID
  | CYCLING_POWER_MEASUREMENT_CHAR_UUID
  | SENSOR_LOCATION_CHAR_UUID
  | CYCLING_SPEED_CADENCE_SERVICE_UUID
  | CSC_FEATURE_CHAR_UUID
  | CSC_MEASUREMENT_CHAR_UUID
  | SC_CONTROL_POINT_CHAR_UUID
  deriving Repr, DecidableEq

/-- Characteristic access properties, the shape of the transport
library's `GATT_CHARS_PROPERTIES_*` bitmask. -/
structure CharProperties where
  read : Bool
  write : Bool
  notify : Bool
  indicate : Bool
  deriving Repr, DecidableEq

def GATT_CHARS_PROPERTIES_READ : CharProperties :=
  ⟨true, false, false, false⟩

def GATT_CHARS_PROPERTIES_WRITE : CharProperties :=
  ⟨false, true, false, false⟩

def GATT_CHARS_PROPERTIES_NOTIFY : CharProperties :=
  ⟨false, false, true, false⟩

def GATT_CHARS_PROPERTIES_INDICATE : CharProperties :=
  ⟨false, false, false, true⟩

/-- Bitwise or of two property masks (the `|` of the source). -/
def CharProperties.or (a b : CharProperties) : CharProperties :=
  ⟨a.read || b.read, a.write || b.write, a.notify || b.notify,
   a.indicate || b.indicate⟩

/-- One declaration issued to the transport during bring-up. -/
inductive GattDecl
  | service (uuid : GattUuid)
  | characteristic (uuid : GattUuid) (props : CharProperties)
      (min_len max_len : Nat)
  deriving Repr, DecidableEq

/-- Observable bring-up state: the declarations issued to the transport
so far, in order, and the log lines printed so far. -/
structure GattState where
  decls : List GattDecl
  log : List String
  deriving Repr, DecidableEq

/-- `Adafruit_BLEGatt::addService`: issues the declaration and takes the
transport's answer for this call (a `uint8_t` handle, hence `% 256`).
`resp` maps the call's position in the declaration sequence to the
handle the transport returns. -/
def addService (resp : Nat → Nat) (st : GattState) (uuid : GattUuid) :
    Nat × GattState :=
  (resp st.decls.length % 256,
   { st with decls := st.decls ++ [GattDecl.service uuid] })

/-- `Adafruit_BLEGatt::addCharacteristic`: issues the declaration and
takes the transport's `uint8_t` handle for this call. -/
def addCharacteristic (resp : Nat → Nat) (st : GattState)
    (uuid : GattUuid) (props : CharProperties) (min_len max_len : Nat) :
    Nat × GattState :=
  (resp st.decls.length % 256,
   { st with
     decls := st.decls
       ++ [GattDecl.characteristic uuid props min_len max_len] })

/-- `logger.println`. -/
def logln (st : GattState) (msg : String) : GattState :=
  { st with log := st.log ++ [msg] }

/-- The handle fields of `BLECyclingPower` assigned during bring-up. -/
structure CatalogIds where
  cp_service_id : Nat
  cp_feature_id : Nat
  cp_measurement_id : Nat
  cp_sensor_location_id : Nat
  csc_service_id : Nat
  csc_feature_id : Nat
  csc_measurement_id : Nat
  csc_sensor_location_id : Nat
  sc_control_point_id : Nat
  deriving Repr, DecidableEq

/-- `BLECyclingPower::setup_cycling_power_feature`, line for line: four
declarations, each followed by a zero-handle check that only logs (the
last failure message repeats the measurement UUID name, as in the
source). -/
def setup_cycling_power_feature (resp : Nat → Nat) (st : GattState)
    (ids : CatalogIds) : GattState × CatalogIds :=
  let r0 := addService resp st GattUuid.CYCLING_POWER_SERVICE_UUID
  let cp_service_id := r0.1
  let st := r0.2
  let st := if cp_service_id = 0 then
    logln st "Could not add the service CYCLING_POWER_SERVICE_UUID" else st
  let r1 := addCharacteristic resp st
    GattUuid.CYCLING_POWER_FEATURE_CHAR_UUID GATT_CHARS_PROPERTIES_READ 4 4
  let cp_feature_id := r1.1
  let st := r1.2
  let st := if cp_feature_id = 0 then
    logln st "Could not add Characteristic CYCLING_POWER_FEATURE_CHAR_UUID"
    else st
  let r2 := addCharacteristic resp st
    GattUuid.CYCLING_POWER_MEASUREMENT_CHAR_UUID
    (GATT_CHARS_PROPERTIES_READ.or GATT_CHARS_PROPERTIES_NOTIFY) 4 8
  let cp_measurement_id := r2.1
  let st := r2.2
  let st := if cp_measurement_id = 0 then
    logln st "Could not add Characteristic CYCLING_POWER_MEASUREMENT_CHAR_UUID"
    else st
  let r3 := addCharacteristic resp st
    GattUuid.SENSOR_LOCATION_CHAR_UUID GATT_CHARS_PROPERTIES_READ 1 1
  let cp_sensor_location_id := r3.1
  let st := r3.2
  let st := if cp_sensor_location_id = 0 then
    logln st "Could not add Characteristic CYCLING_POWER_MEASUREMENT_CHAR_UUID"
    else st
  (st, { ids with
          cp_service_id := cp_service_id
          cp_feature_id := cp_feature_id
          cp_measurement_id := cp_measurement_id
          cp_sensor_location_id := cp_sensor_location_id })

/-- `BLECyclingPower::setup_cycling_speed_cadence_feature`, line for
line: five declarations, each followed by a zero-handle check that only
logs. -/
def setup_cycling_speed_cadence_feature (resp : Nat → Nat)
    (st : GattState) (ids : CatalogIds) : GattState × CatalogIds :=
  let r0 := addService resp st GattUuid.CYCLING_SPEED_CADENCE_SERVICE_UUID
  let csc_service_id := r0.1
  let st := r0.2
  let st := if csc_service_id = 0 then
    logln st "Could not add the service CYCLING_SPEED_CADENCE_SERVICE_UUID"
    else st
  let r1 := addCharacteristic resp st
    GattUuid.CSC_FEATURE_CHAR_UUID GATT_CHARS_PROPERTIES_READ 2 2
  let csc_feature_id := r1.1
  let st := r1.2
  let st := if csc_feature_id = 0 then
    logln st "Could not add the characteristic CSC_FEATURE_CHAR_UUID" else st
  let r2 := addCharacteristic resp st
    GattUuid.CSC_MEASUREMENT_CHAR_UUID GATT_CHARS_PROPERTIES_NOTIFY 11 11
  let csc_measurement_id := r2.1
  let st := r2.2
  let st := if csc_measurement_id = 0 then
    logln st "Could not add the characteristic CSC_MEASUREMENT_CHAR_UUID"
    else st
  let r3 := addCharacteristic resp st
    GattUuid.SENSOR_LOCATION_CHAR_UUID GATT_CHARS_PROPERTIES_READ 1 1
  let csc_sensor_location_id := r3.1
  let st := r3.2
  let st := if csc_sensor_location_id = 0 then
    logln st "Could not add the characteristic SENSOR_LOCATION_CHAR_UUID"
    else st
  let r4 := addCharacteristic resp st
    GattUuid.SC_CONTROL_POINT_CHAR_UUID
    (GATT_CHARS_PROPERTIES_WRITE.or GATT_CHARS_PROPERTIES_INDICATE) 1 5
  let sc_control_point_id := r4.1
  let st := r4.2
  let st := if sc_control_point_id = 0 then
    logln st "Could not add the characteristic SC_CONTROL_POINT_CHAR_UUID"
    else st
  (st, { ids with
          csc_service_id := csc_service_id
          csc_feature_id := csc_feature_id
          csc_measurement_id := csc_measurement_id
          csc_sensor_location_id := csc_sensor_location_id
          sc_control_point_id := sc_control_point_id })

/-- The bring-up declaration phase of `initialize`: the two setup calls,
in order, starting from no issued declarations and all-zero handles. -/
def bringup_declarations (resp : Nat → Nat) : GattState × CatalogIds :=
  let r := setup_cycling_power_feature resp ⟨[], []⟩
    ⟨0, 0, 0, 0, 0, 0, 0, 0, 0⟩
  setup_cycling_speed_cadence_feature resp r.1 r.2

lemma logln_decls (st : GattState) (c : Prop) [Decidable c] (m : String) :
    (if c then logln st m else st).decls = st.decls := by
  split <;> simp [logln]

lemma logln_log (st : GattState) (c : Prop) [Decidable c] (m : String) :
    (if c then logln st m else st).log
      = st.log ++ (if c then [m] else []) := by
  split <;> simp [logln]

/-! ## Further comparator lemmas -/

lemma nulfree_getD (table : List (List Nat)) (k : Nat)
    (h : ∀ t ∈ table, NulFree t) : NulFree (table.getD k []) := by
  rcases Nat.lt_or_ge k table.length with hk | hk
  · rw [List.getD_eq_getElem table [] hk]
    exact h _ (List.getElem_mem hk)
  · rw [List.getD_eq_default table [] hk]
    intro hmem
    simp at hmem

/-- The single-call contract on an arbitrary in-bounds state: the verdict
folds in length- and byte-equality with the current reference line, and
the index advances by exactly one. -/
lemma callback_step_general (state : ProgmemComparatorState)
    (linebuf : List Nat)
    (h1 : state.line_number < state.total_lines)
    (h2 : state.total_lines ≤ 255)
    (h3 : NulFree linebuf)
    (h4 : ∀ t ∈ state.pgm_entry_table, NulFree t) :
    (string_comparator_callback state linebuf linebuf.length).is_equal
        = (state.is_equal
            && (linebuf.length
                  == (state.pgm_entry_table.getD state.line_number []).length)
            && (linebuf == state.pgm_entry_table.getD state.line_number []))
      ∧ (string_comparator_callback state linebuf linebuf.length).line_number
          = state.line_number + 1 := by
  have hnot : ¬ state.line_number ≥ state.total_lines := by omega
  have href := nulfree_getD state.pgm_entry_table state.line_number h4
  constructor
  · simp only [string_comparator_callback, ge_iff_le, hnot, if_false]
    exact verdict_formula state.is_equal linebuf _ h3 href
  · simp only [string_comparator_callback, ge_iff_le, hnot, if_false]
    omega

/-- Zipping a prefix of a list with the list itself pairs equal
elements. -/
lemma take_zip_self (l : List (List Nat)) (m : Nat) :
    ((l.take m).zip l).all (fun p => p.1 == p.2) = true := by
  induction l generalizing m with
  | nil => simp
  | cons x xs ih =>
    cases m with
    | zero => simp
    | succ k => simp [ih k]

/-- The two event-time fields of the CSC payload, decoded: the
`uint32_t` product wraps at 2^32 before the division by 125, and the
result is narrowed to 16 bits; below 2^25 ms no wrap occurs. -/
lemma csc_event_time_fields (cr cms wr wms : Nat) :
    (decode16 (csc_payload cr cms wr wms) 5
        = wms * 128 % 4294967296 / 125 % 65536
      ∧ decode16 (csc_payload cr cms wr wms) 9
        = cms * 128 % 4294967296 / 125 % 65536)
    ∧ ((wms < 33554432 →
          decode16 (csc_payload cr cms wr wms) 5
            = wms * 128 / 125 % 65536)
      ∧ (cms < 33554432 →
          decode16 (csc_payload cr cms wr wms) 9
            = cms * 128 / 125 % 65536)) := by
  have h5 : decode16 (csc_payload cr cms wr wms) 5
      = event_time_csc wms % 256 + 256 * (event_time_csc wms / 256 % 256) := rfl
  have h9 : decode16 (csc_payload cr cms wr wms) 9
      = event_time_csc cms % 256 + 256 * (event_time_csc cms / 256 % 256) := rfl
  have hx : ∀ t : Nat,
      event_time_csc t % 256 + 256 * (event_time_csc t / 256 % 256)
        = t * 128 % 4294967296 / 125 % 65536 := by
    intro t
    unfold event_time_csc
    omega
  refine ⟨⟨by rw [h5, hx], by rw [h9, hx]⟩, ?_, ?_⟩
  · intro h
    rw [h5, hx]
    have hlt : wms * 128 < 4294967296 := by omega
    rw [Nat.mod_eq_of_lt hlt]
  · intro h
    rw [h9, hx]
    have hlt : cms * 128 < 4294967296 := by omega
    rw [Nat.mod_eq_of_lt hlt]

/-! ## Claim theorems -/

/-- C1: for every instantaneous power input in [0, 65535], the power
field written into the Power measurement payload equals
`min(input, 32767)` read back as unsigned; inputs at or below 32767 pass
through unchanged. -/
theorem power_field_clamped (p e : Nat) (hp : p ≤ 65535) :
    decode16 (power_payload p e) 2 = min p 32767
      ∧ (p ≤ 32767 → decode16 (power_payload p e) 2 = p) := by
  have h2 : decode16 (power_payload p e) 2
      = clamp_power p % 65536 % 256
          + 256 * (clamp_power p % 65536 / 256 % 256) := rfl
  have h : decode16 (power_payload p e) 2 = min p 32767 := by
    rw [h2]
    unfold clamp_power
    split <;> omega
  exact ⟨h, fun hp2 => by rw [h]; omega⟩

/-- C1 witness: the clamp at 40000 and the pass-through at 300. -/
theorem power_field_clamped_witness :
    decode16 (power_payload 40000 0) 2 = min 40000 32767
      ∧ decode16 (power_payload 300 50) 2 = 300 :=
  ⟨(power_field_clamped 40000 0 (by decide)).1,
   (power_field_clamped 300 50 (by decide)).2 (by decide)⟩

/-- C2 counterexample: at the crank timestamp 33554432 ms (= 2^25) the
encoded crank event-time field is 0, because the `uint32_t` product
`ms * 128` wraps modulo 2^32 before the division, while the unbounded
formula `(t * 128 / 125) mod 65536` gives 18874. -/
theorem event_time_unbounded_formula_false :
    decode16 (csc_payload 0 33554432 0 33554432) 9
      ≠ 33554432 * 128 / 125 % 65536 := by decide

/-- C2 (amended): the encoded event-time fields equal
`((t * 128 mod 2^32) / 125) mod 65536` — the product is taken in
`uint32_t`, so it wraps at 2^32; whenever `t < 2^25` (so the product does
not wrap) this coincides with the unbounded `(t * 128 / 125) mod 65536`. -/
theorem event_time_wraps_mod_2_32 (cr cms wr wms : Nat)
    (hcms : cms < 4294967296) (hwms : wms < 4294967296) :
    decode16 (csc_payload cr cms wr wms) 5
        = wms * 128 % 4294967296 / 125 % 65536
      ∧ decode16 (csc_payload cr cms wr wms) 9
        = cms * 128 % 4294967296 / 125 % 65536
      ∧ (wms < 33554432 →
          decode16 (csc_payload cr cms wr wms) 5
            = wms * 128 / 125 % 65536)
      ∧ (cms < 33554432 →
          decode16 (csc_payload cr cms wr wms) 9
            = cms * 128 / 125 % 65536) := by
  have h := csc_event_time_fields cr cms wr wms
  exact ⟨h.1.1, h.1.2, h.2.1, h.2.2⟩

/-- C2 witness: at wheel timestamp 2000 ms and crank timestamp 2^25 ms,
the fields are 2048 and 0; the sub-2^25 wheel field also matches the
unbounded formula. -/
theorem event_time_wraps_mod_2_32_witness :
    decode16 (csc_payload 0 33554432 0 2000) 5 = 2048
      ∧ decode16 (csc_payload 0 33554432 0 2000) 9 = 0
      ∧ decode16 (csc_payload 0 33554432 0 2000) 5
          = 2000 * 128 / 125 % 65536 := by
  have h := event_time_wraps_mod_2_32 0 33554432 0 2000 (by decide) (by decide)
  exact ⟨h.1.trans (by decide), h.2.1.trans (by decide),
    h.2.2.1 (by decide)⟩

/-- C3: one in-bounds comparator call sets the verdict to
previous AND (length equal) AND (bytes equal) and advances the index by
exactly one; a full session's verdict from a fresh state is the AND of
per-line equality over every compared line. -/
theorem comparator_step_and_session
    (state : ProgmemComparatorState) (linebuf : List Nat)
    (table lines : List (List Nat))
    (h1 : state.line_number < state.total_lines)
    (h2 : state.total_lines ≤ 255)
    (h3 : NulFree linebuf)
    (h4 : ∀ t ∈ state.pgm_entry_table, NulFree t)
    (h5 : ∀ t ∈ table, NulFree t) (h6 : ∀ l ∈ lines, NulFree l)
    (h7 : lines.length ≤ table.length) (h8 : table.length ≤ 255) :
    ((string_comparator_callback state linebuf linebuf.length).is_equal
        = (state.is_equal
            && (linebuf.length
                  == (state.pgm_entry_table.getD state.line_number []).length)
            && (linebuf == state.pgm_entry_table.getD state.line_number []))
      ∧ (string_comparator_callback state linebuf linebuf.length).line_number
          = state.line_number + 1)
    ∧ (run_session (initState table) lines).is_equal
        = ((lines.zip table).all fun p => p.1 == p.2) := by
  refine ⟨callback_step_general state linebuf h1 h2 h3 h4, ?_⟩
  have h := run_session_verdict table lines 0 true (by omega) h8 h5 h6
  simpa [initState] using h

/-- C3 witness: one matching call on a two-line table, and a session over
a fully matching pair of lines. -/
theorem comparator_step_and_session_witness :
    ((string_comparator_callback ⟨true, 0, 2, [[65], [66]]⟩ [65] 1).is_equal
        = true
      ∧ (string_comparator_callback ⟨true, 0, 2, [[65], [66]]⟩ [65]
          1).line_number = 1)
    ∧ (run_session (initState [[65], [66]]) [[65], [66]]).is_equal = true := by
  have h := comparator_step_and_session ⟨true, 0, 2, [[65], [66]]⟩ [65]
    [[65], [66]] [[65], [66]] (by decide) (by decide) (by decide)
    (by decide) (by decide) (by decide) (by decide) (by decide)
  exact ⟨⟨h.1.1.trans (by decide), h.1.2⟩, h.2.trans (by decide)⟩

/-- C4: once the index has reached the declared total, a comparator call
leaves the state unchanged; a session that supplies only a matching
prefix of the table ends with verdict true. -/
theorem comparator_past_end_noop
    (state : ProgmemComparatorState) (linebuf : List Nat) (line_len : Nat)
    (table : List (List Nat)) (m : Nat)
    (h1 : state.line_number ≥ state.total_lines)
    (h2 : ∀ t ∈ table, NulFree t) (h3 : table.length ≤ 255)
    (h4 : m ≤ table.length) :
    string_comparator_callback state linebuf line_len = state
      ∧ (run_session (initState table) (table.take m)).is_equal = true := by
  constructor
  · simp [string_comparator_callback, h1]
  · have h6 : ∀ l ∈ table.take m, NulFree l :=
      fun l hl => h2 l (List.mem_of_mem_take hl)
    have h := run_session_verdict table (table.take m) 0 true
      (by simp [List.length_take]) h3 h2 h6
    simp only [List.drop_zero] at h
    simp only [initState]
    rw [h, take_zip_self]
    simp

/-- C4 witness: a no-op call at the end of a one-line table, and a
one-line matching-prefix session over a two-line table. -/
theorem comparator_past_end_noop_witness :
    string_comparator_callback ⟨true, 1, 1, [[65]]⟩ [66] 1
        = ⟨true, 1, 1, [[65]]⟩
      ∧ (run_session (initState [[65], [66]]) ([[65], [66]].take 1)).is_equal
        = true :=
  comparator_past_end_noop ⟨true, 1, 1, [[65]]⟩ [66] 1 [[65], [66]] 1
    (by decide) (by decide) (by decide) (by decide)

/-- C10: a false running verdict is absorbing — whatever line and length
a later call supplies, the verdict stays false. -/
theorem comparator_false_absorbing
    (state : ProgmemComparatorState) (linebuf : List Nat) (line_len : Nat)
    (h : state.is_equal = false) :
    (string_comparator_callback state linebuf line_len).is_equal = false := by
  unfold string_comparator_callback
  split
  · exact h
  · simp [h]

/-- C10 witness: a mismatched state keeps its false verdict on the next
call. -/
theorem comparator_false_absorbing_witness :
    (string_comparator_callback ⟨false, 0, 1, [[65]]⟩ [65] 1).is_equal
      = false :=
  comparator_false_absorbing ⟨false, 0, 1, [[65]]⟩ [65] 1 rfl

/-- C5: one update cycle returns true exactly when both the Power and
the Speed/Cadence characteristic writes succeed, and both writes are
always attempted (in order), whatever either write returns: the write
log always holds both characteristic writes. -/
theorem update_success_iff_both_writes
    (cp_id csc_id : Nat) (setChar : Nat → List Nat → Bool)
    (s : SensorSnapshot) :
    ((BLECyclingPower.update cp_id csc_id setChar s).2 = true
        ↔ (setChar cp_id (power_payload s.power_watts s.total_energy_kj)
              = true
            ∧ setChar csc_id (csc_payload s.crank_revs
                s.last_crank_rev_timestamp_ms s.wheel_revs
                s.last_wheel_rev_timestamp_ms) = true))
      ∧ (BLECyclingPower.update cp_id csc_id setChar s).1
          = [(cp_id, power_payload s.power_watts s.total_energy_kj),
             (csc_id, csc_payload s.crank_revs s.last_crank_rev_timestamp_ms
                s.wheel_revs s.last_wheel_rev_timestamp_ms)] := by
  constructor
  · simp [BLECyclingPower.update]
  · simp [BLECyclingPower.update]

/-- C6: whatever subset of the nine declarations the transport answers
with handle zero, bring-up still issues all nine declarations, every slot
holds exactly the handle the transport returned for its call (zero stays
zero), and each zero answer appends its named failure line to the log, in
call order. -/
theorem bringup_partial_failure_tolerated (resp : Nat → Nat) :
    (bringup_declarations resp).1.decls.length = 9
      ∧ (bringup_declarations resp).2
          = ⟨resp 0 % 256, resp 1 % 256, resp 2 % 256, resp 3 % 256,
             resp 4 % 256, resp 5 % 256, resp 6 % 256, resp 7 % 256,
             resp 8 % 256⟩
      ∧ (bringup_declarations resp).1.log
          = (if resp 0 % 256 = 0 then
              ["Could not add the service CYCLING_POWER_SERVICE_UUID"]
             else [])
            ++ (if resp 1 % 256 = 0 then
              ["Could not add Characteristic CYCLING_POWER_FEATURE_CHAR_UUID"]
             else [])
            ++ (if resp 2 % 256 = 0 then
              ["Could not add Characteristic CYCLING_POWER_MEASUREMENT_CHAR_UUID"]
             else [])
            ++ (if resp 3 % 256 = 0 then
              ["Could not add Characteristic CYCLING_POWER_MEASUREMENT_CHAR_UUID"]
             else [])
            ++ (if resp 4 % 256 = 0 then
              ["Could not add the service CYCLING_SPEED_CADENCE_SERVICE_UUID"]
             else [])
            ++ (if resp 5 % 256 = 0 then
              ["Could not add the characteristic CSC_FEATURE_CHAR_UUID"]
             else [])
            ++ (if resp 6 % 256 = 0 then
              ["Could not add the characteristic CSC_MEASUREMENT_CHAR_UUID"]
             else [])
            ++ (if resp 7 % 256 = 0 then
              ["Could not add the characteristic SENSOR_LOCATION_CHAR_UUID"]
             else [])
            ++ (if resp 8 % 256 = 0 then
              ["Could not add the characteristic SC_CONTROL_POINT_CHAR_UUID"]
             else []) := by
  refine ⟨?_, ?_, ?_⟩ <;>
    simp [bringup_declarations, setup_cycling_power_feature,
      setup_cycling_speed_cadence_feature, addService, addCharacteristic,
      logln_decls, logln_log]

/-- C9: bring-up issues exactly this declaration sequence: the Power
service, its read-only 4-byte Feature, read+notify 4-to-8-byte
Measurement and read-only 1-byte Sensor Location; then the Speed/Cadence
service, its read-only 2-byte Feature, notify-only 11-byte Measurement,
read-only 1-byte Sensor Location and write+indicate 1-to-5-byte Control
Point. -/
theorem bringup_declaration_sequence (resp : Nat → Nat) :
    (bringup_declarations resp).1.decls
      = [GattDecl.service GattUuid.CYCLING_POWER_SERVICE_UUID,
         GattDecl.characteristic GattUuid.CYCLING_POWER_FEATURE_CHAR_UUID
           ⟨true, false, false, false⟩ 4 4,
         GattDecl.characteristic GattUuid.CYCLING_POWER_MEASUREMENT_CHAR_UUID
           ⟨true, false, true, false⟩ 4 8,
         GattDecl.characteristic GattUuid.SENSOR_LOCATION_CHAR_UUID
           ⟨true, false, false, false⟩ 1 1,
         GattDecl.service GattUuid.CYCLING_SPEED_CADENCE_SERVICE_UUID,
         GattDecl.characteristic GattUuid.CSC_FEATURE_CHAR_UUID
           ⟨true, false, false, false⟩ 2 2,
         GattDecl.characteristic GattUuid.CSC_MEASUREMENT_CHAR_UUID
           ⟨false, false, true, false⟩ 11 11,
         GattDecl.characteristic GattUuid.SENSOR_LOCATION_CHAR_UUID
           ⟨true, false, false, false⟩ 1 1,
         GattDecl.characteristic GattUuid.SC_CONTROL_POINT_CHAR_UUID
           ⟨false, true, false, true⟩ 1 5] := by
  simp [bringup_declarations, setup_cycling_power_feature,
    setup_cycling_speed_cadence_feature, addService, addCharacteristic,
    logln_decls, GATT_CHARS_PROPERTIES_READ, GATT_CHARS_PROPERTIES_WRITE,
    GATT_CHARS_PROPERTIES_NOTIFY, GATT_CHARS_PROPERTIES_INDICATE,
    CharProperties.or]

/-- C7: decoding the 6-byte Power payload recovers a flags word with only
the accumulated-energy-present bit set, the clamped power, and the energy
unchanged; in particular {power=300, energy=50} yields flags 0x0020,
power 300, energy 50. -/
theorem power_payload_roundtrip (p e : Nat) (hp : p ≤ 65535)
    (he : e ≤ 65535) :
    (power_payload p e).length = 6
      ∧ decode16 (power_payload p e) 0 = CPM_ACCUMULATED_ENERGY_PRESENT
      ∧ decode16 (power_payload p e) 2 = min p 32767
      ∧ decode16 (power_payload p e) 4 = e
      ∧ decode16 (power_payload 300 50) 0 = 0x0020
      ∧ decode16 (power_payload 300 50) 2 = 300
      ∧ decode16 (power_payload 300 50) 4 = 50 := by
  have h2 : decode16 (power_payload p e) 2
      = clamp_power p % 65536 % 256
          + 256 * (clamp_power p % 65536 / 256 % 256) := rfl
  have h4 : decode16 (power_payload p e) 4
      = e % 65536 % 256 + 256 * (e % 65536 / 256 % 256) := rfl
  refine ⟨rfl, rfl, ?_, ?_, by decide, by decide, by decide⟩
  · rw [h2]
    unfold clamp_power
    split <;> omega
  · rw [h4]
    omega

/-- C7 witness: the clamped case {power=40000, energy=50} and the claim's
own snapshot {power=300, energy=50}. -/
theorem power_payload_roundtrip_witness :
    decode16 (power_payload 40000 50) 2 = min 40000 32767
      ∧ decode16 (power_payload 300 50) 0 = 0x0020
      ∧ decode16 (power_payload 300 50) 2 = 300
      ∧ decode16 (power_payload 300 50) 4 = 50 :=
  have h := power_payload_roundtrip 40000 50 (by decide) (by decide)
  ⟨h.2.2.1, h.2.2.2.2.1, h.2.2.2.2.2.1, h.2.2.2.2.2.2⟩

/-- C8 counterexample: for the snapshot with last wheel event at
33554432 ms (= 2^25), the decoded wheel event-time field is 0 — the
`uint32_t` product wrapped — not the 18874 that `ms * 128 / 125`
narrowed to 16 bits would give. -/
theorem csc_roundtrip_unbounded_time_false :
    decode16 (csc_payload 10 1000 500 33554432) 5
      ≠ 33554432 * 128 / 125 % 65536 := by decide

/-- C8 (amended): decoding the 11-byte Speed/Cadence payload recovers
flags 0x03 (wheel and crank bits), the wheel and crank revolution counts
unchanged, and event times equal to `((ms * 128 mod 2^32) / 125) mod
65536` — the conversion wraps at 2^32 and agrees with
`(ms * 128 / 125) mod 65536` exactly when `ms < 2^25`; the claim's
snapshot {crank_revs=10, crank_ms=1000, wheel_revs=500, wheel_ms=2000}
yields flags 0x03, wheel 500, wheel time 2048, crank 10, crank time
1024. -/
theorem csc_payload_roundtrip (cr cms wr wms : Nat)
    (hcr : cr ≤ 65535) (hwr : wr ≤ 4294967295)
    (hcms : cms ≤ 4294967295) (hwms : wms ≤ 4294967295) :
    (csc_payload cr cms wr wms).length = 11
      ∧ (csc_payload cr cms wr wms).getD 0 0 = 0x03
      ∧ decode32 (csc_payload cr cms wr wms) 1 = wr
      ∧ decode16 (csc_payload cr cms wr wms) 5
          = wms * 128 % 4294967296 / 125 % 65536
      ∧ decode16 (csc_payload cr cms wr wms) 7 = cr
      ∧ decode16 (csc_payload cr cms wr wms) 9
          = cms * 128 % 4294967296 / 125 % 65536
      ∧ (wms < 33554432 →
          decode16 (csc_payload cr cms wr wms) 5
            = wms * 128 / 125 % 65536)
      ∧ (cms < 33554432 →
          decode16 (csc_payload cr cms wr wms) 9
            = cms * 128 / 125 % 65536)
      ∧ (csc_payload 10 1000 500 2000).getD 0 0 = 0x03
      ∧ decode32 (csc_payload 10 1000 500 2000) 1 = 500
      ∧ decode16 (csc_payload 10 1000 500 2000) 5 = 2048
      ∧ decode16 (csc_payload 10 1000 500 2000) 7 = 10
      ∧ decode16 (csc_payload 10 1000 500 2000) 9 = 1024 := by
  have h1 : decode32 (csc_payload cr cms wr wms) 1
      = wr % 4294967296 % 256 + 256 * (wr % 4294967296 / 256 % 256)
          + 65536 * (wr % 4294967296 / 65536 % 256)
          + 16777216 * (wr % 4294967296 / 16777216 % 256) := rfl
  have h7 : decode16 (csc_payload cr cms wr wms) 7
      = cr % 65536 % 256 + 256 * (cr % 65536 / 256 % 256) := rfl
  have ht := csc_event_time_fields cr cms wr wms
  refine ⟨rfl, rfl, ?_, ht.1.1, ?_, ht.1.2, ht.2.1, ht.2.2,
    by decide, by decide, by decide, by decide, by decide⟩
  · rw [h1]; omega
  · rw [h7]; omega

/-- C8 witness: the claim's own snapshot, via the amended theorem. -/
theorem csc_payload_roundtrip_witness :
    (csc_payload 10 1000 500 2000).length = 11
      ∧ (csc_payload 10 1000 500 2000).getD 0 0 = 0x03
      ∧ decode32 (csc_payload 10 1000 500 2000) 1 = 500
      ∧ decode16 (csc_payload 10 1000 500 2000) 7 = 10
      ∧ decode16 (csc_payload 10 1000 500 2000) 5
          = 2000 * 128 / 125 % 65536
      ∧ decode16 (csc_payload 10 1000 500 2000) 9
          = 1000 * 128 / 125 % 65536 :=
  have h := csc_payload_roundtrip 10 1000 500 2000
    (by decide) (by decide) (by decide) (by decide)
  ⟨h.1, h.2.1, h.2.2.1, h.2.2.2.2.1,
   h.2.2.2.2.2.2.1 (by decide), h.2.2.2.2.2.2.2.1 (by decide)⟩

end Pelomon
